import Mathlib

/-!
Verification development for the SnipText backend (Cloudflare Worker, Hono).

The definitions below are a shallow embedding of the repository's core logic:

* the magic-link session lifecycle implemented by the `/api/auth/verify` and
  `/api/auth/poll` handlers in `src/routes/auth.ts`;
* the daily quota check and increment performed by the `POST /api/ocr`
  handler in `src/routes/ocr.ts`;
* the token encoding and decoding used by the poll handler
  (`btoa(JSON.stringify(payload))`) and by the OCR auth middleware
  (`JSON.parse(atob(token))`), including a byte-level base64 model of the
  platform's `btoa`/`atob` primitives and a parser for the flat JSON objects
  those payloads are.

Database tables (D1/SQLite) are modelled as maps keyed by their primary keys:
`auth_sessions` is keyed by `session_id` (TEXT PRIMARY KEY), `users` by `id`,
and `usage_daily` by the composite key `(user_id, date)`.  Timestamps are
natural numbers; the source's comparisons (`new Date(expires_at) < new Date()`
in the verify handler, `expires_at > datetime('now')` in the poll query) are
carried over with their exact strictness.
-/

namespace SnipText

/-- A row of the `auth_sessions` table (migration `0001`): `verified` is the
INTEGER column the code writes as 0/1, `expires_at` the DATETIME ordinal. -/
structure SessionRow where
  user_id : String
  verify_token : String
  verified : Nat
  expires_at : Nat
deriving DecidableEq

/-- The columns of a `users` row that the auth handlers read. -/
structure UserRow where
  email : String
  plan : String
deriving DecidableEq

/-- The database state seen by the auth handlers: `auth_sessions` keyed by its
primary key `session_id`, `users` keyed by `id`. -/
structure AuthDb where
  sessions : String → Option SessionRow
  users : String → Option UserRow

/-- Outcome of the `GET /api/auth/verify` handler (`src/routes/auth.ts`
lines 277-378): invalid-link page, expired page, or success page. -/
inductive VerifyOutcome where
  | notFound
  | expired
  | ok
deriving DecidableEq

/-- `GET /api/auth/verify` (`src/routes/auth.ts` lines 292-331): select the row
with `session_id = ? AND verify_token = ?` (session_id is the primary key, so
this is a keyed lookup plus a token comparison); if none, render the
invalid-link page; if `new Date(expires_at) < new Date()`, render the expired
page; otherwise `UPDATE auth_sessions SET verified = 1 WHERE session_id = ?`
and render success. -/
def verifySession (db : AuthDb) (now : Nat) (sessionId tok : String) :
    VerifyOutcome × AuthDb :=
  match db.sessions sessionId with
  | none => (.notFound, db)
  | some s =>
    if s.verify_token ≠ tok then (.notFound, db)
    else if s.expires_at < now then (.expired, db)
    else (.ok, { db with
      sessions := fun k =>
        if k = sessionId then some { s with verified := 1 } else db.sessions k })

/-- The user fields returned by the poll handler on success. -/
structure ConsumedUser where
  id : String
  email : String
  plan : String
deriving DecidableEq

/-- Outcome of the `GET /api/auth/poll` handler. -/
inductive PollOutcome where
  | notFoundOrExpired
  | pending
  | consumed (u : ConsumedUser)
deriving DecidableEq

/-- `GET /api/auth/poll` (`src/routes/auth.ts` lines 381-448): select the
session joined with its user, `WHERE session_id = ? AND expires_at >
datetime('now')`; if no row, answer `Invalid or expired session`; if
`verified = 0`, answer pending; otherwise issue a token, `DELETE FROM
auth_sessions WHERE session_id = ?`, and return the user. -/
def pollAndConsume (db : AuthDb) (now : Nat) (sessionId : String) :
    PollOutcome × AuthDb :=
  match db.sessions sessionId with
  | none => (.notFoundOrExpired, db)
  | some s =>
    if ¬ now < s.expires_at then (.notFoundOrExpired, db)
    else
      match db.users s.user_id with
      | none => (.notFoundOrExpired, db)
      | some u =>
        if s.verified = 0 then (.pending, db)
        else (.consumed ⟨s.user_id, u.email, u.plan⟩,
          { db with
            sessions := fun k => if k = sessionId then none else db.sessions k })

/-- One client-visible operation on the session store: a visit of the verify
link or a poll, each at some time with some arguments. -/
inductive AuthOp where
  | vOp (now : Nat) (sessionId tok : String)
  | pOp (now : Nat) (sessionId : String)

/-- The time at which an operation runs. -/
def AuthOp.time : AuthOp → Nat
  | .vOp t _ _ => t
  | .pOp t _ => t

/-- The database state after one operation. -/
def applyAuthOp (db : AuthDb) : AuthOp → AuthDb
  | .vOp t sid tok => (verifySession db t sid tok).2
  | .pOp t sid => (pollAndConsume db t sid).2

/-- The database state after a sequence of operations. -/
def runAuthOps (db : AuthDb) : List AuthOp → AuthDb
  | [] => db
  | op :: rest => runAuthOps (applyAuthOp db op) rest

/-- The plan → daily ceiling table of `src/routes/ocr.ts` lines 95-101:
`limits[userPlan] || 20`, so a plan absent from the record falls back to 20. -/
def planLimit (plan : String) : Nat :=
  if plan = "free" then 20
  else if plan = "pro" then 1000
  else if plan = "pro-plus" then 5000
  else if plan = "enterprise" then 999999
  else 20

/-- The `usage_daily` table, keyed by its composite primary key
`(user_id, date)`; the value is the `count` column. -/
def UsageDb := String × String → Option Nat

/-- Outcome of the `POST /api/ocr` handler for a request that passed the auth
middleware and input validation: success (HTTP 200), daily limit exceeded
(HTTP 429), or a thrown Gemini error caught as HTTP 500. -/
inductive OcrResult where
  | success (usedBefore limit : Nat)
  | denied (used limit : Nat)
  | providerError
deriving DecidableEq

/-- `POST /api/ocr` (`src/routes/ocr.ts` lines 89-132), quota portion, run
sequentially: read `count` for `(user_id, today)`; `used = usage?.count || 0`;
if `used >= limit` reply 429 with no write; otherwise call Gemini
(`geminiOk` says whether that call succeeds) — on failure the catch block
replies 500 and the counter statements are never reached; on success run
`UPDATE ... SET count = count + 1` when the read found a row, else
`INSERT ... VALUES (?, ?, 1)`. -/
def ocrHandler (db : UsageDb) (userId plan date : String) (geminiOk : Bool) :
    OcrResult × UsageDb :=
  let usage := db (userId, date)
  let limit := planLimit plan
  let used := usage.getD 0
  if used ≥ limit then (.denied used limit, db)
  else if geminiOk then
    let newCount := match usage with
      | some c => c + 1
      | none => 1
    (.success used limit,
      fun k => if k = (userId, date) then some newCount else db k)
  else (.providerError, db)

/-- Progress of one in-flight `POST /api/ocr` request against a single
`(user_id, date)` counter, for the interleaved model: the handler's SELECT and
its later UPDATE/INSERT are two separate database statements, so a request
first records what the SELECT observed and only later performs the decision
and the write. -/
inductive ReqState where
  | unread
  | observed (v : Option Nat)
  | allowed
  | denied
  | sqlError
deriving DecidableEq

/-- One atomic database statement of one request.  In state `unread` the
request runs its SELECT, capturing the current counter.  In state
`observed v` it runs the decision and, if `v.getD 0 < limit`, its write:
`UPDATE count = count + 1` when the SELECT had found a row (the update reads
the counter at write time and leaves an absent row absent), or
`INSERT ... count = 1` when it had not (which violates the primary key if a
row has appeared meanwhile). -/
def stepReq (limit : Nat) (ctr : Option Nat) : ReqState → Option Nat × ReqState
  | .unread => (ctr, .observed ctr)
  | .observed v =>
    if v.getD 0 ≥ limit then (ctr, .denied)
    else
      match v with
      | some _ =>
        match ctr with
        | some c => (some (c + 1), .allowed)
        | none => (none, .allowed)
      | none =>
        match ctr with
        | some _ => (ctr, .sqlError)
        | none => (some 1, .allowed)
  | s => (ctr, s)

/-- Run an interleaving: the schedule lists, statement by statement, which
request executes its next atomic database statement. -/
def runSched (limit : Nat) :
    Option Nat → List ReqState → List Nat → Option Nat × List ReqState
  | ctr, reqs, [] => (ctr, reqs)
  | ctr, reqs, i :: rest =>
    match reqs.get? i with
    | none => runSched limit ctr reqs rest
    | some r =>
      let p := stepReq limit ctr r
      runSched limit p.1 (reqs.set i p.2) rest

/-- An interleaving of 21 concurrent requests on a fresh counter: request 0
runs both its statements, then requests 1-20 all run their SELECT (each
observing count 1), then each runs its write. -/
def raceSchedule : List Nat :=
  [0, 0] ++ (List.range 20).map (· + 1) ++ (List.range 20).map (· + 1)

/-- The standard base64 alphabet, in index order. -/
def b64chars : String :=
  "ABCDEFGHIJKLMNOPQRSTUVWXYZabcdefghijklmnopqrstuvwxyz0123456789+/"

/-- Whether a character belongs to the base64 alphabet. -/
def isB64Char (c : Char) : Bool := b64chars.toList.contains c

/-- The alphabet character for a 6-bit value. -/
def b64charAt (n : Nat) : Char := b64chars.toList.getD n 'A'

/-- The 6-bit value of an alphabet character. -/
def b64val (c : Char) : Nat := b64chars.toList.indexOf c

/-- Base64-encode a byte list, with `=` padding. -/
def b64encodeBytes : List Nat → List Char
  | a :: b :: c :: rest =>
    b64charAt (a / 4) :: b64charAt (a % 4 * 16 + b / 16) ::
      b64charAt (b % 16 * 4 + c / 64) :: b64charAt (c % 64) ::
      b64encodeBytes rest
  | [a, b] => [b64charAt (a / 4), b64charAt (a % 4 * 16 + b / 16),
      b64charAt (b % 16 * 4), '=']
  | [a] => [b64charAt (a / 4), b64charAt (a % 4 * 16), '=', '=']
  | [] => []

/-- Reassemble bytes from a list of 6-bit values, discarding leftover bits of
a trailing partial group, as forgiving-base64 does. -/
def b64decodeGroups : List Nat → List Nat
  | a :: b :: c :: d :: rest =>
    (a * 4 + b / 16) :: (b % 16 * 16 + c / 4) :: (c % 4 * 64 + d) ::
      b64decodeGroups rest
  | [a, b, c] => [a * 4 + b / 16, b % 16 * 16 + c / 4]
  | [a, b] => [a * 4 + b / 16]
  | _ => []

/-- The platform's `btoa`: base64 of the string's code units (the payloads the
code encodes are ASCII, so code units are bytes). -/
def btoa (s : String) : String :=
  String.mk (b64encodeBytes (s.toList.map Char.toNat))

/-- Remove up to two trailing `=` padding characters. -/
def stripTrailingPad (cs : List Char) : List Char :=
  match cs.reverse with
  | '=' :: '=' :: r => r.reverse
  | '=' :: r => r.reverse
  | _ => cs

/-- The platform's `atob` (forgiving-base64 decode): fail on any character
outside the alphabet and `=`; when the length is a multiple of four, strip up
to two trailing `=`; fail when the remaining length is `1 mod 4` or a stray
`=` remains; otherwise decode.  `atob` throwing is modelled as `none`. -/
def atob (s : String) : Option String :=
  let cs := s.toList
  if cs.all (fun c => isB64Char c || c == '=') then
    let body := if cs.length % 4 == 0 then stripTrailingPad cs else cs
    if body.length % 4 == 1 then none
    else if body.all isB64Char then
      some (String.mk ((b64decodeGroups (body.map b64val)).map Char.ofNat))
    else none
  else none

/-- A JSON value as it occurs in the flat token payloads this system issues
and reads: a string (without escape sequences) or a non-negative integer. -/
inductive JVal where
  | jstr (s : String)
  | jnum (n : Nat)
deriving DecidableEq

/-- Parse a JSON string literal from the head of the input.  Escape sequences
and raw control characters are not part of the payloads in scope; inputs
containing them are rejected (where `JSON.parse` would interpret them). -/
def parseStringLit : List Char → Option (String × List Char)
  | '"' :: rest =>
    let content := rest.takeWhile (fun c => c ≠ '"')
    if content.contains '\\' || content.any (fun c => c.toNat < 32) then none
    else
      match rest.dropWhile (fun c => c ≠ '"') with
      | '"' :: r => some (String.mk content, r)
      | _ => none
  | _ => none

/-- Parse a non-negative JSON integer (no leading zeros) from the head of the
input. -/
def parseNumLit (cs : List Char) : Option (Nat × List Char) :=
  let ds := cs.takeWhile Char.isDigit
  if ds.isEmpty then none
  else if ds.length > 1 && ds.headD '1' == '0' then none
  else some (ds.foldl (fun acc c => acc * 10 + (c.toNat - 48)) 0,
    cs.dropWhile Char.isDigit)

/-- Parse one JSON value (string or integer) from the head of the input. -/
def parseJVal (cs : List Char) : Option (JVal × List Char) :=
  match parseStringLit cs with
  | some (s, r) => some (.jstr s, r)
  | none =>
    match parseNumLit cs with
    | some (n, r) => some (.jnum n, r)
    | none => none

/-- Parse the fields of a JSON object after its opening brace: a non-empty
comma-separated list of `"key":value` pairs followed by the closing brace.
The fuel is an upper bound on recursion depth. -/
def parseFieldsAux : Nat → List Char → Option (List (String × JVal) × List Char)
  | 0, _ => none
  | fuel + 1, cs =>
    match parseStringLit cs with
    | none => none
    | some (k, r1) =>
      match r1 with
      | ':' :: r2 =>
        match parseJVal r2 with
        | none => none
        | some (v, r3) =>
          match r3 with
          | ',' :: r4 =>
            match parseFieldsAux fuel r4 with
            | none => none
            | some (fs, r5) => some ((k, v) :: fs, r5)
          | '\x7d' :: r4 => some ([(k, v)], r4)
          | _ => none
      | _ => none

/-- `JSON.parse` restricted to the flat objects this system's token payloads
are (string and integer fields, no whitespace): inputs outside that fragment
are rejected. -/
def parseJson (s : String) : Option (List (String × JVal)) :=
  match s.toList with
  | '\x7b' :: '\x7d' :: [] => some []
  | '\x7b' :: rest =>
    match parseFieldsAux (rest.length + 1) rest with
    | some (fs, []) => some fs
    | _ => none
  | _ => none

/-- Property access on the parsed object: the last binding of a key wins, as
it does for an object built by `JSON.parse`; an absent key is `undefined`,
modelled as `none`. -/
def jlookup (o : List (String × JVal)) (k : String) : Option JVal :=
  o.foldl (fun acc p => if p.1 = k then some p.2 else acc) none

/-- What the OCR auth middleware stores into the request context on success:
`payload.sub`, `payload.email`, `payload.plan`, each possibly `undefined`. -/
structure MwClaims where
  userId : Option JVal
  userEmail : Option JVal
  userPlan : Option JVal
deriving DecidableEq

/-- The truthy-and-past test `payload.exp && payload.exp < Math.floor(
Date.now() / 1000)`: an absent `exp` is `undefined` (falsy) and `exp = 0` is
falsy, so in both cases the expiry check is skipped. -/
def expTruthyPast (obj : List (String × JVal)) (nowSec : Nat) : Bool :=
  match jlookup obj "exp" with
  | some (.jnum e) => !(e == 0) && decide (e < nowSec)
  | _ => false

/-- The auth middleware on `/ocr/*` (`src/routes/ocr.ts` lines 21-57, and the
variant at `src/unnamed/part_000` lines 21-46): decode the bearer token with
`JSON.parse(atob(token))` — any throw is caught and answered `Invalid token`
(`none` here) — then reject as `Token expired` when `payload.exp` is truthy
and in the past, and otherwise store `payload.sub`, `payload.email`,
`payload.plan` in the context and let the request proceed.  No signature is
checked anywhere on this path. -/
def ocrAuthMiddleware (nowSec : Nat) (token : String) : Option MwClaims :=
  match atob token with
  | none => none
  | some payloadStr =>
    match parseJson payloadStr with
    | none => none
    | some obj =>
      if expTruthyPast obj nowSec then none
      else some ⟨jlookup obj "sub", jlookup obj "email", jlookup obj "plan"⟩

/-- The JSON text of the payload built by the poll handler
(`src/routes/auth.ts` lines 417-423), with `JSON.stringify`'s key order and
`exp = iat + 60 * 60 * 24 * 7` (7 days). -/
def pollJwtPayload (userId email plan : String) (nowSec : Nat) : String :=
  "\x7b\"sub\":\"" ++ userId ++ "\",\"email\":\"" ++ email ++
    "\",\"plan\":\"" ++ plan ++ "\",\"iat\":" ++ toString nowSec ++
    ",\"exp\":" ++ toString (nowSec + 60 * 60 * 24 * 7) ++ "\x7d"

/-- The token the poll handler returns on a verified session
(`src/routes/auth.ts` line 426): `btoa(JSON.stringify(payload))`. -/
def magicPollToken (userId email plan : String) (nowSec : Nat) : String :=
  btoa (pollJwtPayload userId email plan nowSec)

/-- Modelled at the library interface: `sign` from `hono/jwt`, used by the
`POST /auth/google` and `POST /auth/refresh` handlers (`src/routes/auth.ts`
lines 80 and 180), produces an HMAC-signed JWT — three base64url segments
(header, payload, signature) joined by dots.  Only the dot-separated shape
matters here. -/
def jwtShape (header payload sig : String) : String :=
  header ++ "." ++ payload ++ "." ++ sig

/-- A concrete user row. -/
def userA : UserRow := ⟨"a@x.com", "free"⟩

/-- A concrete unverified session for user `u1`, expiring at time 100. -/
def sessA : SessionRow := ⟨"u1", "tokA", 0, 100⟩

/-- A second concrete unverified session, with a different verify token. -/
def sessB : SessionRow := ⟨"u2", "tokB", 0, 100⟩

/-- A concrete already-verified session for user `u1`, expiring at time 100. -/
def sessV : SessionRow := ⟨"u1", "tokA", 1, 100⟩

/-- Store with one pending session `s1` and its user. -/
def authDb1 : AuthDb :=
  ⟨fun k => if k = "s1" then some sessA else none,
   fun k => if k = "u1" then some userA else none⟩

/-- Store with two pending sessions `s1` and `s2` whose verify tokens differ. -/
def authDb2 : AuthDb :=
  ⟨fun k => if k = "s1" then some sessA
    else if k = "s2" then some sessB else none,
   fun k => if k = "u1" then some userA else none⟩

/-- Store with one already-verified session `s1` and its user. -/
def authDb3 : AuthDb :=
  ⟨fun k => if k = "s1" then some sessV else none,
   fun k => if k = "u1" then some userA else none⟩

/-- A usage table holding count 19 for `("u1", "2026-10-11")`. -/
def usage19 : UsageDb :=
  fun k => if k = ("u1", "2026-10-11") then some 19 else none

/-- A usage table holding count 5 for `("u1", "2026-10-11")`. -/
def usage5 : UsageDb :=
  fun k => if k = ("u1", "2026-10-11") then some 5 else none

/-- The JSON payload of a token the poll handler could have issued
(`iat = 5`, `exp = 99`, plan `free`). -/
def originalPayload : String :=
  "\x7b\"sub\":\"u1\",\"email\":\"a@x.com\",\"plan\":\"free\",\"iat\":5,\"exp\":99\x7d"

/-- `originalPayload` with a single byte changed: the final `e` of `free`
(0x65) becomes `d` (0x64), a one-bit flip. -/
def tamperedPayload : String :=
  "\x7b\"sub\":\"u1\",\"email\":\"a@x.com\",\"plan\":\"fred\",\"iat\":5,\"exp\":99\x7d"

/-- A token payload carrying no `exp` field at all. -/
def noExpPayload : String := "\x7b\"sub\":\"u1\",\"plan\":\"free\"\x7d"

/-! ### Helper lemmas about the session state machine -/

theorem verify_eq_of_none {db : AuthDb} {sid : String} (t : Nat) (tok : String)
    (h : db.sessions sid = none) :
    verifySession db t sid tok = (.notFound, db) := by
  unfold verifySession
  rw [h]

theorem poll_eq_of_none {db : AuthDb} {sid : String} (t : Nat)
    (h : db.sessions sid = none) :
    pollAndConsume db t sid = (.notFoundOrExpired, db) := by
  unfold pollAndConsume
  rw [h]

theorem verify_wrongtok {db : AuthDb} {sid tok : String} {s : SessionRow}
    (t : Nat) (hs : db.sessions sid = some s) (hneq : s.verify_token ≠ tok) :
    verifySession db t sid tok = (.notFound, db) := by
  unfold verifySession
  rw [hs]
  simp [hneq]

theorem verify_expired_eq {db : AuthDb} {sid tok : String} {s : SessionRow}
    {t : Nat} (hs : db.sessions sid = some s) (htok : s.verify_token = tok)
    (hexp : s.expires_at < t) :
    verifySession db t sid tok = (.expired, db) := by
  unfold verifySession
  rw [hs]
  simp [htok, hexp]

theorem verify_found {db : AuthDb} {sid tok : String} {s : SessionRow}
    {t : Nat} (hs : db.sessions sid = some s) (htok : s.verify_token = tok)
    (hexp : ¬ s.expires_at < t) :
    verifySession db t sid tok = (.ok, { db with
      sessions := fun k =>
        if k = sid then some { s with verified := 1 } else db.sessions k }) := by
  unfold verifySession
  rw [hs]
  simp [htok, hexp]

theorem verify_ok_inv {db : AuthDb} {sid tok : String} {t : Nat}
    (hok : (verifySession db t sid tok).1 = .ok) :
    ∃ s, db.sessions sid = some s ∧ s.verify_token = tok ∧
      ¬ s.expires_at < t := by
  unfold verifySession at hok
  cases hs : db.sessions sid with
  | none => rw [hs] at hok; simp at hok
  | some s =>
    rw [hs] at hok
    by_cases h1 : s.verify_token ≠ tok
    · simp [h1] at hok
    · by_cases h2 : s.expires_at < t
      · simp [h1, h2] at hok
      · exact ⟨s, rfl, not_not.mp h1, h2⟩

theorem poll_stale {db : AuthDb} {sid : String} {s : SessionRow} {t : Nat}
    (hs : db.sessions sid = some s) (hexp : ¬ t < s.expires_at) :
    pollAndConsume db t sid = (.notFoundOrExpired, db) := by
  unfold pollAndConsume
  rw [hs]
  simp [hexp]

theorem poll_consumed {db : AuthDb} {sid : String} {s : SessionRow}
    {u : UserRow} {t : Nat} (hs : db.sessions sid = some s)
    (hexp : t < s.expires_at) (hu : db.users s.user_id = some u)
    (hv : s.verified ≠ 0) :
    pollAndConsume db t sid = (.consumed ⟨s.user_id, u.email, u.plan⟩,
      { db with
        sessions := fun k => if k = sid then none else db.sessions k }) := by
  unfold pollAndConsume
  rw [hs]
  simp [hexp, hu, hv]

theorem verify_not_ok_of_expired {db : AuthDb} {sid : String} {s : SessionRow}
    {t : Nat} (hs : db.sessions sid = some s) (hexp : s.expires_at < t)
    (tok : String) : (verifySession db t sid tok).1 ≠ .ok := by
  by_cases h1 : s.verify_token = tok
  · rw [verify_expired_eq hs h1 hexp]; simp
  · rw [verify_wrongtok t hs h1]; simp

theorem applyAuthOp_preserves_none {db : AuthDb} {sid : String}
    (op : AuthOp) (h : db.sessions sid = none) :
    (applyAuthOp db op).sessions sid = none := by
  cases op with
  | vOp t sid' tok =>
    show (verifySession db t sid' tok).2.sessions sid = none
    cases hs : db.sessions sid' with
    | none => rw [verify_eq_of_none t tok hs]; exact h
    | some s' =>
      by_cases h1 : s'.verify_token ≠ tok
      · rw [verify_wrongtok t hs h1]; exact h
      · by_cases h2 : s'.expires_at < t
        · rw [verify_expired_eq hs (not_not.mp h1) h2]; exact h
        · rw [verify_found hs (not_not.mp h1) h2]
          by_cases he : sid = sid'
          · subst he; rw [hs] at h; cases h
          · simpa [he] using h
  | pOp t sid' =>
    show (pollAndConsume db t sid').2.sessions sid = none
    cases hs : db.sessions sid' with
    | none => rw [poll_eq_of_none t hs]; exact h
    | some s' =>
      by_cases h2 : t < s'.expires_at
      · cases hu : db.users s'.user_id with
        | none =>
          unfold pollAndConsume
          rw [hs]
          simp [h2, hu, h]
        | some u =>
          by_cases h3 : s'.verified = 0
          · unfold pollAndConsume
            rw [hs]
            simp [h2, hu, h3, h]
          · rw [poll_consumed hs h2 hu h3]
            by_cases he : sid = sid'
            · simp [he]
            · simpa [he] using h
      · rw [poll_stale hs h2]; exact h

theorem runAuthOps_preserves_none {db : AuthDb} {sid : String}
    (ops : List AuthOp) (h : db.sessions sid = none) :
    (runAuthOps db ops).sessions sid = none := by
  induction ops generalizing db with
  | nil => exact h
  | cons op rest ih =>
    exact ih (applyAuthOp_preserves_none op h)

theorem applyAuthOp_preserves_expired {db : AuthDb} {sid : String}
    {s : SessionRow} (op : AuthOp) (hs : db.sessions sid = some s)
    (hlt : s.expires_at < op.time) :
    (applyAuthOp db op).sessions sid = some s := by
  cases op with
  | vOp t sid' tok =>
    show (verifySession db t sid' tok).2.sessions sid = some s
    cases hs' : db.sessions sid' with
    | none => rw [verify_eq_of_none t tok hs']; exact hs
    | some s' =>
      by_cases h1 : s'.verify_token ≠ tok
      · rw [verify_wrongtok t hs' h1]; exact hs
      · by_cases h2 : s'.expires_at < t
        · rw [verify_expired_eq hs' (not_not.mp h1) h2]; exact hs
        · rw [verify_found hs' (not_not.mp h1) h2]
          by_cases he : sid = sid'
          · subst he
            rw [hs] at hs'
            cases hs'
            exact absurd hlt h2
          · simpa [he] using hs
  | pOp t sid' =>
    show (pollAndConsume db t sid').2.sessions sid = some s
    cases hs' : db.sessions sid' with
    | none => rw [poll_eq_of_none t hs']; exact hs
    | some s' =>
      by_cases h2 : t < s'.expires_at
      · cases hu : db.users s'.user_id with
        | none =>
          unfold pollAndConsume
          rw [hs']
          simp [h2, hu, hs]
        | some u =>
          by_cases h3 : s'.verified = 0
          · unfold pollAndConsume
            rw [hs']
            simp [h2, hu, h3, hs]
          · rw [poll_consumed hs' h2 hu h3]
            by_cases he : sid = sid'
            · subst he
              rw [hs] at hs'
              cases hs'
              exact absurd h2 (by exact Nat.not_lt.mpr (Nat.le_of_lt hlt))
            · simpa [he] using hs
      · rw [poll_stale hs' h2]; exact hs

theorem runAuthOps_preserves_expired {db : AuthDb} {sid : String}
    {s : SessionRow} (ops : List AuthOp) (hs : db.sessions sid = some s)
    (hops : ∀ op ∈ ops, s.expires_at < op.time) :
    (runAuthOps db ops).sessions sid = some s := by
  induction ops generalizing db with
  | nil => exact hs
  | cons op rest ih =>
    exact ih (applyAuthOp_preserves_expired op hs
        (hops op (List.mem_cons_self op rest)))
      (fun o ho => hops o (List.mem_cons_of_mem op ho))

/-! ### Claims -/

/-- Claim C6: for every session and every presented token that does not equal
that session's stored verify token, the verify handler answers the
invalid-link (NOT_FOUND) outcome and leaves the store unchanged — even when
some other valid session's stored token equals the presented value — because
the lookup matches `session_id` and `verify_token` together. -/
theorem c6_both_identifiers_required (db : AuthDb) (t : Nat)
    (sid tok : String) (s : SessionRow)
    (hs : db.sessions sid = some s) (hneq : s.verify_token ≠ tok)
    (sid' : String) (s' : SessionRow)
    (_hother : db.sessions sid' = some s') (_htok : s'.verify_token = tok) :
    verifySession db t sid tok = (.notFound, db) :=
  verify_wrongtok t hs hneq

/-- Witness for C6: in a store holding sessions `s1` (token `tokA`) and `s2`
(token `tokB`), presenting `tokB` against `s1` answers NOT_FOUND although an
unexpired session with stored token `tokB` exists. -/
theorem c6_both_identifiers_required_witness :
    verifySession authDb2 0 "s1" "tokB" = (.notFound, authDb2) :=
  c6_both_identifiers_required authDb2 0 "s1" "tokB" sessA rfl
    (by decide) "s2" sessB rfl rfl

/-- Claim C7: a session with `verified = 0` whose expiry has passed never
transitions to verified under any sequence of verify/poll operations run
after the expiry: its row is left exactly as it was, the verify handler
answers EXPIRED on the matching token (and never OK on any token), and the
poll handler answers NOT_FOUND_OR_EXPIRED. -/
theorem c7_expired_never_verified (db : AuthDb) (sid : String)
    (s : SessionRow) (hs : db.sessions sid = some s) (_hv : s.verified = 0)
    (ops : List AuthOp) (hops : ∀ op ∈ ops, s.expires_at < op.time) :
    (runAuthOps db ops).sessions sid = some s ∧
    ∀ t, s.expires_at < t →
      (verifySession (runAuthOps db ops) t sid s.verify_token).1 = .expired ∧
      (pollAndConsume (runAuthOps db ops) t sid).1 = .notFoundOrExpired ∧
      ∀ tok, (verifySession (runAuthOps db ops) t sid tok).1 ≠ .ok := by
  have hrow := runAuthOps_preserves_expired ops hs hops
  refine ⟨hrow, fun t ht => ⟨?_, ?_, fun tok => verify_not_ok_of_expired hrow ht tok⟩⟩
  · rw [verify_expired_eq hrow rfl ht]
  · rw [poll_stale hrow (Nat.not_lt.mpr (Nat.le_of_lt ht))]

/-- Witness for C7: session `s1` (unverified, expires at 100) stays unverified
across a verify at time 200 and a poll at time 300; afterwards verify still
answers EXPIRED and poll NOT_FOUND_OR_EXPIRED at time 400. -/
theorem c7_expired_never_verified_witness :
    (runAuthOps authDb1 [.vOp 200 "s1" "tokA", .pOp 300 "s1"]).sessions "s1" =
      some sessA ∧
    ∀ t, sessA.expires_at < t →
      (verifySession (runAuthOps authDb1 [.vOp 200 "s1" "tokA", .pOp 300 "s1"])
        t "s1" sessA.verify_token).1 = .expired ∧
      (pollAndConsume (runAuthOps authDb1 [.vOp 200 "s1" "tokA", .pOp 300 "s1"])
        t "s1").1 = .notFoundOrExpired ∧
      ∀ tok, (verifySession
        (runAuthOps authDb1 [.vOp 200 "s1" "tokA", .pOp 300 "s1"])
        t "s1" tok).1 ≠ .ok :=
  c7_expired_never_verified authDb1 "s1" sessA rfl rfl
    [.vOp 200 "s1" "tokA", .pOp 300 "s1"]
    (by
      intro op hop
      simp only [List.mem_cons, List.not_mem_nil, or_false] at hop
      rcases hop with rfl | rfl
      · decide
      · decide)

/-- Claim C8: verify is idempotent — on an unexpired session that is already
verified, calling verify again with the matching sessionId and verifyToken
answers OK and the resulting store equals the store before the call (the
`UPDATE ... SET verified = 1` is a no-op). -/
theorem c8_verify_idempotent (db : AuthDb) (t : Nat) (sid : String)
    (s : SessionRow) (hs : db.sessions sid = some s) (hver : s.verified = 1)
    (hexp : ¬ s.expires_at < t) :
    verifySession db t sid s.verify_token = (.ok, db) := by
  rw [verify_found hs rfl hexp]
  have hrow : { s with verified := 1 } = s := by
    cases s
    simp_all
  have hfun : (fun k =>
      if k = sid then some { s with verified := 1 } else db.sessions k) =
      db.sessions := by
    funext k
    by_cases hk : k = sid
    · subst hk
      rw [if_pos rfl, hrow, hs]
    · rw [if_neg hk]
  rw [hfun]

/-- Witness for C8: re-verifying the already-verified session `s1` at time 50
answers OK and returns the store unchanged. -/
theorem c8_verify_idempotent_witness :
    verifySession authDb3 50 "s1" sessV.verify_token = (.ok, authDb3) :=
  c8_verify_idempotent authDb3 50 "s1" sessV rfl rfl (by decide)

/-- Claim C1: single-use law.  After the verify handler returns OK on an
unexpired session, the next poll with its sessionId made while the session is
still unexpired (and whose owning user exists) returns CONSUMED and deletes
the session row as part of that call; every verify or poll with that
sessionId after the consuming one — under any further sequence of verify/poll
operations — returns NOT_FOUND / NOT_FOUND_OR_EXPIRED, so no further call
with that sessionId can succeed. -/
theorem c1_single_use (db : AuthDb) (t0 t1 : Nat) (sid tok : String)
    (hok : (verifySession db t0 sid tok).1 = .ok)
    (hfresh : ∀ s, db.sessions sid = some s → t1 < s.expires_at)
    (huser : ∀ s, db.sessions sid = some s → (db.users s.user_id).isSome) :
    ∃ u,
      (pollAndConsume (verifySession db t0 sid tok).2 t1 sid).1 =
        .consumed u ∧
      ((pollAndConsume (verifySession db t0 sid tok).2 t1 sid).2).sessions
        sid = none ∧
      (∀ ops t2,
        (pollAndConsume (runAuthOps
          ((pollAndConsume (verifySession db t0 sid tok).2 t1 sid).2) ops)
          t2 sid).1 = .notFoundOrExpired) ∧
      (∀ ops t2 tok2,
        (verifySession (runAuthOps
          ((pollAndConsume (verifySession db t0 sid tok).2 t1 sid).2) ops)
          t2 sid tok2).1 = .notFound) := by
  obtain ⟨s, hs, htok, hexp⟩ := verify_ok_inv hok
  have hv := verify_found hs htok hexp
  rw [hv]
  set db1 : AuthDb := { db with
    sessions := fun k =>
      if k = sid then some { s with verified := 1 } else db.sessions k }
    with hdb1
  have hs1 : db1.sessions sid = some { s with verified := 1 } := by
    rw [hdb1]
    simp
  obtain ⟨u, hu⟩ := Option.isSome_iff_exists.mp (huser s hs)
  have hu1 : db1.users ({ s with verified := 1 } : SessionRow).user_id =
      some u := hu
  have hp := poll_consumed hs1 (hfresh s hs) hu1 (by simp)
  rw [hp]
  refine ⟨_, rfl, ?_, ?_, ?_⟩
  · simp [hs1]
  · intro ops t2
    have hnone : ({ db1 with
        sessions := fun k => if k = sid then none else db1.sessions k } :
        AuthDb).sessions sid = none := by simp
    rw [(poll_eq_of_none t2 (runAuthOps_preserves_none ops hnone))]
  · intro ops t2 tok2
    have hnone : ({ db1 with
        sessions := fun k => if k = sid then none else db1.sessions k } :
        AuthDb).sessions sid = none := by simp
    rw [(verify_eq_of_none t2 tok2 (runAuthOps_preserves_none ops hnone))]

/-- Witness for C1: verify session `s1` at time 0, poll at time 50 — the poll
consumes and returns user `u1`; afterwards polls and verifies at time 60 (and
under the empty further sequence) fail. -/
theorem c1_single_use_witness :
    ∃ u,
      (pollAndConsume (verifySession authDb1 0 "s1" "tokA").2 50 "s1").1 =
        .consumed u ∧
      ((pollAndConsume (verifySession authDb1 0 "s1" "tokA").2 50
        "s1").2).sessions "s1" = none ∧
      (∀ ops t2,
        (pollAndConsume (runAuthOps
          ((pollAndConsume (verifySession authDb1 0 "s1" "tokA").2 50
            "s1").2) ops) t2 "s1").1 = .notFoundOrExpired) ∧
      (∀ ops t2 tok2,
        (verifySession (runAuthOps
          ((pollAndConsume (verifySession authDb1 0 "s1" "tokA").2 50
            "s1").2) ops) t2 "s1" tok2).1 = .notFound) :=
  c1_single_use authDb1 0 50 "s1" "tokA" (by decide)
    (by
      intro s hsx
      injection hsx with h
      rw [← h]
      decide)
    (by
      intro s hsx
      injection hsx with h
      rw [← h]
      decide)

/-- Claim C5: sequential quota boundary.  For a user on plan `free` (ceiling
20) whose stored count is 19, the next accepted request is ALLOWED with
usedBefore 19 and limit 20 and raises the stored count to 20; the call after
that is DENIED with used 20 and limit 20 and leaves the stored count at 20.
Ceilings are the fixed mapping free→20, pro→1000, pro-plus→5000, enterprise
999999, and every unknown plan falls back to the free ceiling 20. -/
theorem c5_quota_boundary (db : UsageDb) (u d : String)
    (h : db (u, d) = some 19) :
    ocrHandler db u "free" d true = (.success 19 20,
      fun k => if k = (u, d) then some 20 else db k) ∧
    (ocrHandler (fun k => if k = (u, d) then some 20 else db k)
      u "free" d true).1 = .denied 20 20 ∧
    (ocrHandler (fun k => if k = (u, d) then some 20 else db k)
      u "free" d true).2 (u, d) = some 20 ∧
    planLimit "free" = 20 ∧ planLimit "pro" = 1000 ∧
    planLimit "pro-plus" = 5000 ∧ planLimit "enterprise" = 999999 ∧
    ∀ p, p ≠ "free" → p ≠ "pro" → p ≠ "pro-plus" → p ≠ "enterprise" →
      planLimit p = 20 := by
  refine ⟨?_, ?_, ?_, rfl, rfl, rfl, rfl, ?_⟩
  · simp [ocrHandler, h, planLimit]
  · simp [ocrHandler, planLimit]
  · simp [ocrHandler, planLimit]
  · intro p h1 h2 h3 h4
    simp [planLimit, h1, h2, h3, h4]

/-- Witness for C5: the boundary behaviour evaluated on a usage table holding
count 19 for `("u1", "2026-10-11")`. -/
theorem c5_quota_boundary_witness :
    ocrHandler usage19 "u1" "free" "2026-10-11" true = (.success 19 20,
      fun k => if k = ("u1", "2026-10-11") then some 20 else usage19 k) ∧
    (ocrHandler (fun k =>
      if k = ("u1", "2026-10-11") then some 20 else usage19 k)
      "u1" "free" "2026-10-11" true).1 = .denied 20 20 ∧
    (ocrHandler (fun k =>
      if k = ("u1", "2026-10-11") then some 20 else usage19 k)
      "u1" "free" "2026-10-11" true).2 ("u1", "2026-10-11") = some 20 ∧
    planLimit "free" = 20 ∧ planLimit "pro" = 1000 ∧
    planLimit "pro-plus" = 5000 ∧ planLimit "enterprise" = 999999 ∧
    ∀ p, p ≠ "free" → p ≠ "pro" → p ≠ "pro-plus" → p ≠ "enterprise" →
      planLimit p = 20 :=
  c5_quota_boundary usage19 "u1" "2026-10-11" rfl

/-- Counterexample for C4 as stated: with a stored count of 5 for
`("u1", "2026-10-11")` on plan `free` (so the check allows the request), a
failing external extraction call leaves the stored count at 5, not at the
claimed pre-request value plus one (6) — the handler increments the counter
only after `callGeminiOCR` returns, so a thrown provider error reaches the
catch block before any write. -/
theorem c4_counterexample :
    (ocrHandler usage5 "u1" "free" "2026-10-11" false).1 = .providerError ∧
    (ocrHandler usage5 "u1" "free" "2026-10-11" false).2
      ("u1", "2026-10-11") = some 5 ∧
    ¬ (ocrHandler usage5 "u1" "free" "2026-10-11" false).2
      ("u1", "2026-10-11") = some 6 := by
  exact ⟨rfl, rfl, by decide⟩

/-- Claim C4 (amended): for every metered request whose quota check observes
`used < limit` (the ALLOWED path) and whose external extraction call fails,
no quota increment is recorded at all: the handler returns the provider-error
outcome and the stored usage table is exactly its pre-request value, because
the counter write is placed after the successful extraction call. -/
theorem c4_no_increment_on_provider_failure (db : UsageDb)
    (userId plan date : String)
    (h : (db (userId, date)).getD 0 < planLimit plan) :
    ocrHandler db userId plan date false = (.providerError, db) := by
  have h' : ¬ (db (userId, date)).getD 0 ≥ planLimit plan := Nat.not_le.mpr h
  simp [ocrHandler, h']

/-- Witness for C4 (amended): evaluated at count 5 on plan `free`. -/
theorem c4_no_increment_on_provider_failure_witness :
    ocrHandler usage5 "u1" "free" "2026-10-11" false = (.providerError,
      usage5) :=
  c4_no_increment_on_provider_failure usage5 "u1" "free" "2026-10-11"
    (by decide)

/-- Claim C2, evaluated at the failing input: the quota check and the
increment are two separate database statements (a SELECT, then an
UPDATE/INSERT), so under the interleaving `raceSchedule` of 21 concurrent
requests for a fresh `(user, day)` on a plan with ceiling 20 all 21 requests
are ALLOWED and the final stored count is 21 — not the exactly-20 ALLOWED
outcomes and final count 20 the claim requires. -/
theorem c2_race_overcount :
    (runSched 20 none (List.replicate 21 .unread) raceSchedule).1 =
      some 21 ∧
    ((runSched 20 none (List.replicate 21 .unread)
      raceSchedule).2.count .allowed) = 21 ∧
    ¬ (runSched 20 none (List.replicate 21 .unread) raceSchedule).1 =
      some 20 := by
  decide

/-- Claim C3, evaluated at the failing input: `tamperedPayload` differs from
`originalPayload` in exactly one byte (one bit of the plan string), yet the
OCR auth middleware — which performs no signature verification before
extracting claims — accepts the tampered token and stores the wrong,
attacker-chosen claim set (plan `fred`) instead of returning the invalid
outcome. -/
theorem c3_tampered_token_accepted :
    ((originalPayload.toList.zip tamperedPayload.toList).countP
      fun p => p.1 != p.2) = 1 ∧
    originalPayload.length = tamperedPayload.length ∧
    ocrAuthMiddleware 10 (btoa originalPayload) =
      some ⟨some (.jstr "u1"), some (.jstr "a@x.com"), some (.jstr "free")⟩ ∧
    ocrAuthMiddleware 10 (btoa tamperedPayload) =
      some ⟨some (.jstr "u1"), some (.jstr "a@x.com"), some (.jstr "fred")⟩ := by
  decide

/-- Claim C9: credentials from the two login paths are not interchangeable.
Every token of the `hono/jwt` shape (three segments joined by dots, as minted
by the Google OAuth and refresh handlers) is rejected by the OCR gateway's
middleware at every time, because `atob` fails on the dot character before
any claim is read; while the unsigned base64-JSON token issued by the
magic-link poll handler is accepted and yields its embedded claims. -/
theorem c9_jwt_rejected_by_gateway :
    (∀ (t : Nat) (header payload sig : String),
      ocrAuthMiddleware t (jwtShape header payload sig) = none) ∧
    ocrAuthMiddleware 0 (magicPollToken "u1" "a@x.com" "free" 0) =
      some ⟨some (.jstr "u1"), some (.jstr "a@x.com"), some (.jstr "free")⟩ := by
  constructor
  · intro t a b c
    have hdot : ('.' : Char) ∈ (jwtShape a b c).toList := by
      have : (jwtShape a b c).toList =
          a.toList ++ ('.' :: (b.toList ++ ('.' :: c.toList))) := by
        simp [jwtShape, String.toList]
      rw [this]
      exact List.mem_append_right _ (List.mem_cons_self _ _)
    have hnotall : ¬ ((jwtShape a b c).toList.all
        (fun ch => isB64Char ch || ch == '=') = true) := by
      intro hall
      have := List.all_eq_true.mp hall '.' hdot
      exact absurd this (by decide)
    have hatob : atob (jwtShape a b c) = none := by
      unfold atob
      simp only [Bool.or_eq_true, beq_iff_eq]
      rw [if_neg (by simpa using hnotall)]
    simp [ocrAuthMiddleware, hatob]
  · decide

/-- Claim C10: the gateway's expiry check is skipped when the decoded payload
carries no `exp` field or `exp = 0`.  Any token that decodes and parses to a
flat JSON object whose `exp` is absent or the number 0 is accepted by the
middleware at every time, with the claims read from the payload. -/
theorem c10_untruthy_exp_never_expires (token payloadStr : String)
    (obj : List (String × JVal)) (t : Nat)
    (hdec : atob token = some payloadStr)
    (hparse : parseJson payloadStr = some obj)
    (hexp : jlookup obj "exp" = none ∨ jlookup obj "exp" = some (.jnum 0)) :
    ocrAuthMiddleware t token =
      some ⟨jlookup obj "sub", jlookup obj "email", jlookup obj "plan"⟩ := by
  have hpast : expTruthyPast obj t = false := by
    unfold expTruthyPast
    rcases hexp with h | h
    · rw [h]
    · rw [h]
      simp
  simp [ocrAuthMiddleware, hdec, hparse, hpast]

/-- Witness for C10: a token whose payload has no `exp` field is accepted at
the very large time 999999999. -/
theorem c10_untruthy_exp_never_expires_witness :
    ocrAuthMiddleware 999999999 (btoa noExpPayload) =
      some ⟨some (.jstr "u1"), none, some (.jstr "free")⟩ :=
  c10_untruthy_exp_never_expires (btoa noExpPayload) noExpPayload
    [("sub", .jstr "u1"), ("plan", .jstr "free")] 999999999
    (by decide) (by decide) (Or.inl (by decide))

end SnipText
